import Mathlib

/-!
Verification of the interactive command layer of the pmp-library mesh
processing viewer (`src/apps/MeshProcessingViewer.cpp`).

The mesh is modelled as the viewer observes it through the pmp interface:
a list of vertex positions in vertex-iteration order, a parallel list of
optional per-vertex texture attributes, a list of faces (each an ordered
list of vertex indices, as yielded by the face's vertex circulator), and a
list of edges (endpoint index pairs, as yielded by `vertex(e, 0/1)`).
`Scalar` arithmetic is idealised over `ℚ`; the `distance` and bounding-box
collaborators, whose internals are outside this layer, are abstracted as
function parameters.
-/

/-- A vertex position (pmp `Point`, three scalar coordinates). -/
abbrev MeshPoint : Type := ℚ × ℚ × ℚ

/-- The mesh as observed by the viewer layer: positions in vertex-iteration
order, optional per-vertex texture attribute, faces as ordered index lists,
edges as endpoint index pairs. -/
structure SurfaceMesh where
  positions : List MeshPoint
  vattrs : List (Option ℚ)
  faces : List (List ℕ)
  edges : List (ℕ × ℕ)
deriving DecidableEq

/-- The freshly constructed `SurfaceMeshGL new_mesh;` of the rebuild branch. -/
def emptyMesh : SurfaceMesh := ⟨[], [], [], []⟩

/-- `add_vertex(p)`: appends a vertex with position `p`; no other per-vertex
attribute receives a value (modelled as `none`). -/
def addVertex (m : SurfaceMesh) (p : MeshPoint) : SurfaceMesh :=
  { m with positions := m.positions ++ [p], vattrs := m.vattrs ++ [none] }

/-- Whether the edge container already holds an edge between `a` and `b`
(in either orientation). -/
def containsEdge (es : List (ℕ × ℕ)) (a b : ℕ) : Bool :=
  es.any (fun e => (e.1 == a && e.2 == b) || (e.1 == b && e.2 == a))

/-- Consecutive cyclic pairs of a vertex list: the boundary half-edges a face
with that vertex list traverses. -/
def cyclicPairs (vs : List ℕ) : List (ℕ × ℕ) :=
  match vs with
  | [] => []
  | v :: _ => vs.zip (vs.drop 1 ++ [v])

/-- `add_face(vs)`: appends the face and creates the boundary edges that do
not exist yet (pmp creates one edge per missing boundary half-edge pair, in
traversal order). -/
def addFace (m : SurfaceMesh) (vs : List ℕ) : SurfaceMesh :=
  { m with
    faces := m.faces ++ [vs],
    edges := (cyclicPairs vs).foldl
      (fun es p => if containsEdge es p.1 p.2 then es else es ++ [p]) m.edges }

/-- The `GLFW_KEY_O` branch of `MeshProcessingViewer::keyboard`: build a new
mesh by adding every vertex position of the old mesh in iteration order, then
adding every face of the old mesh with its circulator vertex list reversed. -/
def rebuild (m : SurfaceMesh) : SurfaceMesh :=
  let newMesh := m.positions.foldl addVertex emptyMesh
  m.faces.foldl (fun acc f => addFace acc f.reverse) newMesh

theorem foldl_addVertex_positions (ps : List MeshPoint) (m0 : SurfaceMesh) :
    (ps.foldl addVertex m0).positions = m0.positions ++ ps := by
  induction ps generalizing m0 with
  | nil => simp
  | cons p ps ih => simp [ih, addVertex]

theorem foldl_addVertex_vattrs (ps : List MeshPoint) (m0 : SurfaceMesh) :
    (ps.foldl addVertex m0).vattrs = m0.vattrs ++ List.replicate ps.length none := by
  induction ps generalizing m0 with
  | nil => simp
  | cons p ps ih =>
    simp [ih, addVertex, List.replicate_succ]

theorem foldl_addVertex_faces (ps : List MeshPoint) (m0 : SurfaceMesh) :
    (ps.foldl addVertex m0).faces = m0.faces := by
  induction ps generalizing m0 with
  | nil => rfl
  | cons p ps ih => simp [ih, addVertex]

theorem foldl_addFace_faces (fs : List (List ℕ)) (m0 : SurfaceMesh) :
    (fs.foldl (fun acc f => addFace acc f.reverse) m0).faces
      = m0.faces ++ fs.map List.reverse := by
  induction fs generalizing m0 with
  | nil => simp
  | cons f fs ih =>
    rw [List.foldl_cons, ih]
    simp [addFace]

theorem foldl_addFace_positions (fs : List (List ℕ)) (m0 : SurfaceMesh) :
    (fs.foldl (fun acc f => addFace acc f.reverse) m0).positions = m0.positions := by
  induction fs generalizing m0 with
  | nil => rfl
  | cons f fs ih =>
    rw [List.foldl_cons, ih]
    rfl

theorem foldl_addFace_vattrs (fs : List (List ℕ)) (m0 : SurfaceMesh) :
    (fs.foldl (fun acc f => addFace acc f.reverse) m0).vattrs = m0.vattrs := by
  induction fs generalizing m0 with
  | nil => rfl
  | cons f fs ih =>
    rw [List.foldl_cons, ih]
    rfl

theorem rebuild_positions (m : SurfaceMesh) : (rebuild m).positions = m.positions := by
  simp [rebuild, foldl_addFace_positions, foldl_addVertex_positions, emptyMesh]

theorem rebuild_faces (m : SurfaceMesh) :
    (rebuild m).faces = m.faces.map List.reverse := by
  simp [rebuild, foldl_addFace_faces, foldl_addVertex_faces, emptyMesh]

theorem rebuild_vattrs (m : SurfaceMesh) :
    (rebuild m).vattrs = List.replicate m.positions.length none := by
  simp [rebuild, foldl_addFace_vattrs, foldl_addVertex_vattrs, emptyMesh]

/-- C1: the orientation rebuild produces a mesh with exactly the same number
of vertices, the i-th inserted vertex carrying the position of the i-th
visited vertex (and no other per-vertex attribute copied), and exactly the
same number of faces, the i-th face being the reversal of the i-th face's
vertex list of the input mesh, inserted in the same enumeration order. -/
theorem C1_rebuild_structure (m : SurfaceMesh) :
    (rebuild m).positions.length = m.positions.length ∧
    (rebuild m).faces.length = m.faces.length ∧
    (rebuild m).positions = m.positions ∧
    (rebuild m).faces = m.faces.map List.reverse ∧
    (rebuild m).vattrs = List.replicate m.positions.length none := by
  refine ⟨?_, ?_, rebuild_positions m, rebuild_faces m, rebuild_vattrs m⟩
  · rw [rebuild_positions]
  · rw [rebuild_faces, List.length_map]

/-- C2: two consecutive orientation rebuilds with no intervening mutation
restore every face's original winding and leave every vertex position
unchanged. -/
theorem C2_rebuild_involution (m : SurfaceMesh) :
    (rebuild (rebuild m)).positions = m.positions ∧
    (rebuild (rebuild m)).faces = m.faces := by
  constructor
  · rw [rebuild_positions, rebuild_positions]
  · rw [rebuild_faces, rebuild_faces, List.map_map]
    simp

/-- The handles issued by a mesh's `add_vertex` calls: the i-th call returns
handle `i`, so a mesh that inserted `n` vertices issued handles `0..n-1`. -/
def issuedHandles (m : SurfaceMesh) : List ℕ :=
  List.range m.positions.length

/-- A structurally valid mesh: every vertex index referenced by a face is a
handle of the mesh. Every mesh produced through the pmp interface satisfies
this. -/
def validMesh (m : SurfaceMesh) : Prop :=
  ∀ f ∈ m.faces, ∀ v ∈ f, v < m.positions.length

instance (m : SurfaceMesh) : Decidable (validMesh m) := by
  unfold validMesh
  infer_instance

/-- C6: every handle passed to `add_face` on the rebuilt mesh (the reversed
vertex lists of the old mesh's faces) is a handle issued by the rebuilt mesh
itself, because the rebuild inserted the vertices in the same order, so index
`i` is a handle of the new mesh whenever it was one of the old. -/
theorem C6_addface_handles_issued_by_new_mesh (m : SurfaceMesh) (h : validMesh m) :
    ∀ f ∈ m.faces.map List.reverse, ∀ v ∈ f, v ∈ issuedHandles (rebuild m) := by
  intro f hf v hv
  rw [List.mem_map] at hf
  obtain ⟨g, hg, rfl⟩ := hf
  rw [List.mem_reverse] at hv
  rw [issuedHandles, rebuild_positions, List.mem_range]
  exact h g hg v hv

/-- A concrete triangle mesh used to instantiate theorems with hypotheses. -/
def demoMesh : SurfaceMesh :=
  ⟨[(0, 0, 0), (1, 0, 0), (0, 1, 0)], [none, none, none],
   [[0, 1, 2]], [(0, 1), (1, 2), (2, 0)]⟩

/-- Witness for C6 at the concrete triangle mesh: handle 1 of the reversed
face list is a handle issued by the rebuilt mesh. -/
theorem C6_witness : (1 : ℕ) ∈ issuedHandles (rebuild demoMesh) :=
  C6_addface_handles_issued_by_new_mesh demoMesh (by decide)
    [2, 1, 0] (by decide) 1 (by decide)

/-! ### Keyboard dispatch (`MeshProcessingViewer::keyboard`) -/

/-- GLFW constant: release action. -/
def GLFW_RELEASE : Int := 0

/-- GLFW constant: press action. -/
def GLFW_PRESS : Int := 1

/-- GLFW constant: auto-repeat action. -/
def GLFW_REPEAT : Int := 2

/-- GLFW constant: the O key. -/
def GLFW_KEY_O : Int := 79

/-- What a keyboard event leads to: nothing (early return on a non-press,
non-repeat action), the orientation rebuild replacing the mesh followed by a
refresh, or forwarding to the base viewer handler. -/
inductive KeyboardResult where
  | ignored : KeyboardResult
  | rebuilt (newMesh : SurfaceMesh) : KeyboardResult
  | forwarded (key scancode action mods : Int) : KeyboardResult
deriving DecidableEq

/-- `MeshProcessingViewer::keyboard`: returns early unless the action is a
press or a repeat; on `GLFW_KEY_O` performs the orientation rebuild (the
`mods` argument is never examined on this path); every other key is forwarded
to the base handler. -/
def keyboard (key scancode action mods : Int) (m : SurfaceMesh) : KeyboardResult :=
  if action ≠ GLFW_PRESS ∧ action ≠ GLFW_REPEAT then KeyboardResult.ignored
  else if key = GLFW_KEY_O then KeyboardResult.rebuilt (rebuild m)
  else KeyboardResult.forwarded key scancode action mods

/-- C10: the O-key branch ignores the modifier mask entirely: with any `mods`
value, a press (or an auto-repeat) of the O key triggers the rebuild, with a
result not depending on `mods`. -/
theorem C10_rebuild_ignores_modifiers (scancode mods : Int) (m : SurfaceMesh) :
    keyboard GLFW_KEY_O scancode GLFW_PRESS mods m = KeyboardResult.rebuilt (rebuild m) ∧
    keyboard GLFW_KEY_O scancode GLFW_REPEAT mods m = KeyboardResult.rebuilt (rebuild m) := by
  constructor <;> rfl

/-! ### Geodesic gesture (`MeshProcessingViewer::mouse`) -/

/-- GLFW constant: middle mouse button. -/
def GLFW_MOUSE_BUTTON_MIDDLE : Int := 2

/-- GLFW constant: shift modifier bit. -/
def GLFW_MOD_SHIFT : Int := 1

/-- The color schemes this layer can select. -/
inductive ColorScheme where
  | coldWarm : ColorScheme
  | checkerboard : ColorScheme
deriving DecidableEq

/-- The observable outcome of a mouse event: the geodesic-distance query
issued (mesh and seed set), whether distances were written to texture
coordinates, the color scheme selected, the draw mode set, whether a
visualization refresh was requested, and the arguments forwarded to the base
handler (if any). -/
structure MouseOutcome where
  geodesicCall : Option (SurfaceMesh × List Int)
  distancesWritten : Bool
  colorScheme : Option ColorScheme
  drawModeSet : Option String
  refreshRequested : Bool
  forwardedToBase : Option (Int × Int × Int)
deriving DecidableEq

/-- The outcome in which nothing at all happens. -/
def noOutcome : MouseOutcome := ⟨none, false, none, none, false, none⟩

/-- pmp `SurfaceMesh::is_valid(Vertex)`: the handle index is in range. -/
def isValidVertex (m : SurfaceMesh) (v : Int) : Bool :=
  decide (0 ≤ v ∧ v < (m.positions.length : Int))

/-- `MeshProcessingViewer::mouse`: on a middle-button press while the stored
modifier state equals exactly shift, pick a vertex under the cursor (`pick`
is the handle `pick_vertex` returned); if it is valid, query geodesic
distances from that single seed, write them to texture coordinates, select
the checkerboard scheme, set the Texture draw mode and refresh; if invalid,
do nothing. Any other gesture is forwarded to the base handler. -/
def mouse (button action mods modifiers pick : Int) (m : SurfaceMesh) : MouseOutcome :=
  if action = GLFW_PRESS ∧ button = GLFW_MOUSE_BUTTON_MIDDLE ∧ modifiers = GLFW_MOD_SHIFT then
    if isValidVertex m pick then
      { geodesicCall := some (m, [pick]),
        distancesWritten := true,
        colorScheme := some ColorScheme.checkerboard,
        drawModeSet := some "Texture",
        refreshRequested := true,
        forwardedToBase := none }
    else noOutcome
  else { noOutcome with forwardedToBase := some (button, action, mods) }

/-- C4: a geodesic-gesture trigger (middle-button press with exactly shift
held) whose pick returns an invalid vertex handle is a no-op: no geodesic
query, no texture write, no color-scheme or draw-mode change, no refresh,
and no forwarding either. -/
theorem C4_invalid_pick_is_noop (mods pick : Int) (m : SurfaceMesh)
    (h : isValidVertex m pick = false) :
    mouse GLFW_MOUSE_BUTTON_MIDDLE GLFW_PRESS mods GLFW_MOD_SHIFT pick m = noOutcome := by
  simp [mouse, h]

/-- Witness for C4: at the concrete triangle mesh, a shift+middle press whose
pick returned the invalid handle -1 produces the empty outcome. -/
theorem C4_witness :
    mouse GLFW_MOUSE_BUTTON_MIDDLE GLFW_PRESS 0 GLFW_MOD_SHIFT (-1) demoMesh = noOutcome :=
  C4_invalid_pick_is_noop 0 (-1) demoMesh (by decide)

/-- C5: a geodesic-gesture trigger whose pick returns a valid vertex handle
`v` issues a geodesic query on the current mesh with seed set exactly `[v]`,
writes the distances to texture coordinates, selects the checkerboard
scheme, sets the Texture draw mode and requests a refresh. -/
theorem C5_valid_pick_geodesic (mods pick : Int) (m : SurfaceMesh)
    (h : isValidVertex m pick = true) :
    mouse GLFW_MOUSE_BUTTON_MIDDLE GLFW_PRESS mods GLFW_MOD_SHIFT pick m =
      { geodesicCall := some (m, [pick]),
        distancesWritten := true,
        colorScheme := some ColorScheme.checkerboard,
        drawModeSet := some "Texture",
        refreshRequested := true,
        forwardedToBase := none } := by
  simp [mouse, h]

/-- Witness for C5: at the concrete triangle mesh, picking vertex 1 issues
the geodesic query with seed set `[1]` and the full visualization side
effects. -/
theorem C5_witness :
    mouse GLFW_MOUSE_BUTTON_MIDDLE GLFW_PRESS 0 GLFW_MOD_SHIFT 1 demoMesh =
      { geodesicCall := some (demoMesh, [1]),
        distancesWritten := true,
        colorScheme := some ColorScheme.checkerboard,
        drawModeSet := some "Texture",
        refreshRequested := true,
        forwardedToBase := none } :=
  C5_valid_pick_geodesic 0 1 demoMesh (by decide)

/-! ### Decimation dispatch (`process_imgui`, "Decimate it!") -/

/-- The target vertex count the Decimation command passes to
`SurfaceSimplification::simplify`: the code computes
`mesh_.n_vertices() * 0.01 * target_percentage` in `Scalar` arithmetic, and
the conversion to the unsigned parameter of `simplify` truncates toward
zero. -/
def decimationTarget (nVertices p : ℕ) : ℕ :=
  ⌊(nVertices : ℚ) * 0.01 * (p : ℚ)⌋₊

/-- Target vertex count as the spec words it: `round(n × p / 100)`. -/
def specDecimationTarget (nVertices p : ℕ) : ℤ :=
  round ((nVertices : ℚ) * (p : ℚ) / 100)

/-- C3 counterexample: with 10 vertices and `targetPercentage = 15` the code
passes `⌊1.5⌋ = 1` to the simplification call, while `round(10 × 15 / 100) =
round(1.5) = 2`, so the claimed rounding does not hold. -/
theorem C3_counterexample :
    (decimationTarget 10 15 : ℤ) ≠ specDecimationTarget 10 15 := by
  norm_num [decimationTarget, specDecimationTarget, round_eq]
  have h : ((3 : ℚ) / 2) = ((3 : ℕ) : ℚ) / ((2 : ℕ) : ℚ) := by norm_num
  rw [h, Nat.floor_div_nat, Nat.floor_natCast]
  norm_num

/-- C3 amended: for every vertex count `n` and stored `targetPercentage`
`p ∈ [1, 99]`, the Decimation command passes the simplification operator a
target vertex count equal to `⌊n × p / 100⌋` (the product truncated toward
zero by the double-to-unsigned conversion), not `round(n × p / 100)`. -/
theorem C3_decimation_target_floor (n p : ℕ) (h1 : 1 ≤ p) (h2 : p ≤ 99) :
    decimationTarget n p = n * p / 100 := by
  unfold decimationTarget
  have h : (n : ℚ) * 0.01 * (p : ℚ) = ((n * p : ℕ) : ℚ) / ((100 : ℕ) : ℚ) := by
    push_cast
    ring
  rw [h, Nat.floor_div_nat, Nat.floor_natCast]

/-- Witness for C3 (amended) at the spec's end-to-end scenario: 100 vertices
at 50 percent yields target 50. -/
theorem C3_witness : decimationTarget 100 50 = 100 * 50 / 100 :=
  C3_decimation_target_floor 100 50 (by decide) (by decide)

/-! ### Remeshing dispatch (`process_imgui`, "Remeshing" header) -/

/-- Position lookup `mesh_.position(v)` on a handle index. -/
def positionOf (m : SurfaceMesh) (v : ℕ) : MeshPoint :=
  m.positions.getD v (0, 0, 0)

/-- Length of edge `e` under the external `distance` collaborator `d`:
`distance(position(vertex(e, 0)), position(vertex(e, 1)))`. -/
def edgeLen (d : MeshPoint → MeshPoint → ℚ) (m : SurfaceMesh) (e : ℕ × ℕ) : ℚ :=
  d (positionOf m e.1) (positionOf m e.2)

/-- The accumulation loop of the Uniform Remeshing button: `Scalar l(0);
for (auto eit : mesh_.edges()) l += distance(...)`. -/
def edgeLengthSum (d : MeshPoint → MeshPoint → ℚ) (m : SurfaceMesh) : ℚ :=
  m.edges.foldl (fun l e => l + edgeLen d m e) 0

/-- The target edge length the Uniform Remeshing command passes to
`uniform_remeshing`: the accumulated sum divided by `mesh_.n_edges()`,
computed from the mesh as it is at the moment of invocation. -/
def uniformRemeshingTarget (d : MeshPoint → MeshPoint → ℚ) (m : SurfaceMesh) : ℚ :=
  edgeLengthSum d m / (m.edges.length : ℚ)

/-- The invocation the Uniform Remeshing button performs: the
`uniform_remeshing` call with its target length (there is no guard, so the
call always happens), followed by the unconditional refresh request. -/
def uniformRemeshingDispatch (d : MeshPoint → MeshPoint → ℚ) (m : SurfaceMesh) :
    Option ℚ × Bool :=
  (some (uniformRemeshingTarget d m), true)

/-- Mean edge length as the spec words it: sum of the lengths of all edges
divided by the edge count. -/
def meanEdgeLength (d : MeshPoint → MeshPoint → ℚ) (m : SurfaceMesh) : ℚ :=
  (m.edges.map (edgeLen d m)).sum / (m.edges.length : ℚ)

theorem foldl_add_eq_sum (f : ℕ × ℕ → ℚ) (l : List (ℕ × ℕ)) (a : ℚ) :
    l.foldl (fun acc e => acc + f e) a = a + (l.map f).sum := by
  induction l generalizing a with
  | nil => simp
  | cons e l ih => simp [ih, add_assoc]

/-- C7: for every mesh with at least one edge, the Uniform Remeshing command
passes the remeshing operator a target edge length equal to the arithmetic
mean of all edge lengths of the mesh at the moment of invocation. -/
theorem C7_uniform_target_is_mean (d : MeshPoint → MeshPoint → ℚ) (m : SurfaceMesh)
    (h : m.edges ≠ []) :
    uniformRemeshingDispatch d m = (some (meanEdgeLength d m), true) := by
  unfold uniformRemeshingDispatch uniformRemeshingTarget edgeLengthSum meanEdgeLength
  rw [foldl_add_eq_sum, zero_add]

/-- Taxicab distance: a concrete instantiation of the external `distance`
collaborator for witnesses. -/
def dTaxi (p q : MeshPoint) : ℚ :=
  |p.1 - q.1| + |p.2.1 - q.2.1| + |p.2.2 - q.2.2|

/-- A two-edge polyline mesh with edge lengths 1 and 2 under `dTaxi`. -/
def edgeMesh : SurfaceMesh :=
  ⟨[(0, 0, 0), (1, 0, 0), (3, 0, 0)], [none, none, none], [], [(0, 1), (1, 2)]⟩

/-- Witness for C7 at the concrete two-edge mesh: the dispatched target is
the mean edge length. -/
theorem C7_witness :
    uniformRemeshingDispatch dTaxi edgeMesh = (some (meanEdgeLength dTaxi edgeMesh), true) :=
  C7_uniform_target_is_mean dTaxi edgeMesh (by decide)

/-- C9: for a mesh with zero edges the Uniform Remeshing command still
performs the `uniform_remeshing` invocation (nothing rejects or skips it) and
the target it passes is the accumulated sum `0` divided by the edge count
`0` — an unguarded division by zero. -/
theorem C9_zero_edges_unguarded_division (d : MeshPoint → MeshPoint → ℚ)
    (m : SurfaceMesh) (h : m.edges = []) :
    uniformRemeshingDispatch d m = (some ((0 : ℚ) / (0 : ℚ)), true) := by
  unfold uniformRemeshingDispatch uniformRemeshingTarget edgeLengthSum
  rw [h]
  simp

/-- Witness for C9 at a concrete edgeless mesh (the triangle soup before any
face was added). -/
theorem C9_witness :
    uniformRemeshingDispatch dTaxi ⟨[(0, 0, 0)], [none], [], []⟩ =
      (some ((0 : ℚ) / (0 : ℚ)), true) :=
  C9_zero_edges_unguarded_division dTaxi ⟨[(0, 0, 0)], [none], [], []⟩ rfl

/-- The three arguments the Adaptive Remeshing command passes to
`adaptive_remeshing`, computed from `auto bb = mesh_.bounds().size();` where
`bbDiag` abstracts the external bounding-box-diagonal collaborator: minimum
edge length `0.001 * bb`, maximum edge length `1.0 * bb`, approximation
error `0.001 * bb`. -/
def adaptiveRemeshingArgs (bbDiag : SurfaceMesh → ℚ) (m : SurfaceMesh) : ℚ × ℚ × ℚ :=
  let bb := bbDiag m
  (0.001 * bb, 1.0 * bb, 0.001 * bb)

/-- C8: the Adaptive Remeshing command passes the remeshing operator exactly
`0.001·d` (minimum edge length), `1.0·d` (maximum edge length) and `0.001·d`
(approximation error), where `d` is the bounding-box diagonal of the mesh at
the moment of invocation. -/
theorem C8_adaptive_args (bbDiag : SurfaceMesh → ℚ) (m : SurfaceMesh) :
    (adaptiveRemeshingArgs bbDiag m).1 = (1 / 1000) * bbDiag m ∧
    (adaptiveRemeshingArgs bbDiag m).2.1 = bbDiag m ∧
    (adaptiveRemeshingArgs bbDiag m).2.2 = (1 / 1000) * bbDiag m := by
  refine ⟨?_, ?_, ?_⟩ <;>
    simp [adaptiveRemeshingArgs] <;> norm_num
